import Mathlib

/-!
Shallow embedding of the Gamma API client (`src/gamma/client.rs`) of
rs-clob-client: the generic request/response pipeline `Client::request`,
client construction `Client::new`, the `host` accessor, and the endpoint
accessors `tag_by_id` and `related_tags_by_slug`.

The repository sources contain only `client.rs`; the error type
(`crate::error::Error`), the typed request/response structs
(`gamma/types.rs`) and the external `url` / `reqwest` collaborators are
modelled from the specification where the pipeline depends on them, and
each such definition says so in its doc comment.
-/

namespace Gamma

/-- HTTP method, carried as its name (the client only ever uses GET). -/
abbrev Method := String

/-- Parsed absolute URL, mirroring the components of `url::Url` that the
client observes: scheme, host, path component and optional query string. -/
structure Url where
  scheme : String
  host : String
  path : String
  query : Option String
deriving DecidableEq, Repr

/-- Display of a `Url`, as interpolated by `format!("{}...", self.host())`
in the accessors: scheme, `://`, host, path, and `?query` when present. -/
def Url.toString (u : Url) : String :=
  u.scheme ++ "://" ++ u.host ++ u.path ++
    (match u.query with
     | some q => "?" ++ q
     | none => "")

instance : ToString Url := ⟨Url.toString⟩

/-- Splits a character list at the first occurrence of the pattern,
returning the parts before and after it. -/
def splitFirstAux (pat : List Char) : List Char → Option (List Char × List Char)
  | [] => none
  | c :: rest =>
    if pat.isPrefixOf (c :: rest) then some ([], (c :: rest).drop pat.length)
    else
      match splitFirstAux pat rest with
      | some (pre, post) => some (c :: pre, post)
      | none => none

/-- Modelled from the spec: the absolute-URL validation performed by
`url::Url::parse`, which `Client::new` delegates to and which is not part
of this repository's sources ("validate it as a well-formed absolute
URL"). Simplified grammar: `scheme "://" host [path] ["?" query]` with a
nonempty alphabetic scheme and a nonempty host containing neither `/` nor
`?`; an absent path is normalized to `/` (the normalization the `url`
crate applies to e.g. `https://example.com`). -/
def Url.parse (s : String) : Option Url :=
  match splitFirstAux ("://".toList) s.toList with
  | none => none
  | some (schemeCs, restCs) =>
    if schemeCs.isEmpty || !schemeCs.all Char.isAlpha then none
    else
      let hostCs := restCs.takeWhile (fun c => c != '/' && c != '?')
      let afterCs := restCs.drop hostCs.length
      if hostCs.isEmpty then none
      else
        let pathQ : List Char :=
          if afterCs.isEmpty then ['/']
          else if afterCs.head? == some '?' then '/' :: afterCs
          else afterCs
        let pathCs := pathQ.takeWhile (fun c => c != '?')
        let qCs := pathQ.drop pathCs.length
        some ⟨String.mk schemeCs, String.mk hostCs, String.mk pathCs,
              if qCs.isEmpty then none else some (String.mk (qCs.drop 1))⟩

/-- Header map: ordered key-value pairs, as observed by the pipeline. -/
abbrev HeaderMap := List (String × String)

/-- Insertion into a header map, as `HeaderMap::insert` of the `http`
crate: replaces any existing entry for the key. -/
def HeaderMap.insert (m : HeaderMap) (k v : String) : HeaderMap :=
  m.filter (fun p => p.1 != k) ++ [(k, v)]

/-- The default headers installed by `Client::new` (client.rs lines 30-36). -/
def defaultHeaders : HeaderMap :=
  HeaderMap.insert
    (HeaderMap.insert
      (HeaderMap.insert
        (HeaderMap.insert [] "User-Agent" "rs_clob_client")
        "Accept" "*/*")
      "Connection" "keep-alive")
    "Content-Type" "application/json"

/-- The underlying `reqwest::Client`: the transport handle, configured once
with default headers. Connection pooling and TLS are outside the model. -/
structure ReqwestClient where
  defaultHeaders : HeaderMap
deriving DecidableEq, Repr

/-- The `gamma::Client` struct (client.rs lines 15-19): a base host URL and
a transport handle, both fixed at construction. -/
structure Client where
  host : Url
  client : ReqwestClient
deriving DecidableEq, Repr

/-- Modelled from the spec: the error taxonomy of `crate::error::Error`
(not in the sources) — "Configuration (bad base URL) · Transport
(network failure) · Status (code, method, path, body) · Decode (cause,
method, path)". -/
inductive Error where
  | configuration (cause : String)
  | transport (cause : String)
  | status (code : Nat) (method : Method) (path : String) (message : String)
  | decode (cause : String) (method : Method) (path : String)
deriving DecidableEq, Repr

/-- Constructor `Client::new` (client.rs lines 29-42): install the default
headers on the transport and parse the host string, failing with a
`Configuration` error when it is not a well-formed absolute URL. -/
def Client.new (host : String) : Except Error Client :=
  match Url.parse host with
  | some u => .ok ⟨u, ⟨defaultHeaders⟩⟩
  | none => .error (.configuration host)

/-- A prepared `reqwest::Request`: method, parsed URL and headers. -/
structure Request where
  method : Method
  url : Url
  headers : HeaderMap
deriving DecidableEq, Repr

/-- Outcome of dispatching a request over the transport: either a
transport-level failure, or a raw response with its status code, the
result of reading the body as text (`none` when the read fails), and the
result of deserializing the body as JSON into `Option T` (`Except.error`
when deserialization fails, `.ok none` for a JSON `null` body). -/
inductive TransportOutcome (T : Type) where
  | failure (cause : String)
  | response (status : Nat) (textResult : Option String)
      (jsonResult : Except String (Option T))

/-- Embeds `StatusCode::is_success`: the 2xx range. -/
def isSuccess (status : Nat) : Bool :=
  decide (200 ≤ status) && decide (status < 300)

/-- The header-override step of `Client::request` (client.rs lines 67-69):
`*request.headers_mut() = h` fully replaces the request's headers when an
override is supplied, and leaves the request untouched otherwise. -/
def applyHeaderOverride (req : Request) (headers : Option HeaderMap) : Request :=
  match headers with
  | some h => { req with headers := h }
  | none => req

/-- The pipeline `Client::request` (client.rs lines 52-104). The transport
dispatch `self.client.execute(request)` is a parameter `exec` from the
transport handle and the final request to a `TransportOutcome`; the error
kinds of the `?` conversions follow the spec's taxonomy (Transport for
dispatch failure, Decode with method and path for deserialization failure,
since `crate::error` is not in the sources). The method and the URL path
are captured from the request before the header override and the
dispatch. -/
def Client.request {T : Type} (c : Client)
    (exec : ReqwestClient → Request → TransportOutcome T)
    (req : Request) (headers : Option HeaderMap) : Except Error T :=
  let method := req.method
  let path := req.url.path
  let req := applyHeaderOverride req headers
  match exec c.client req with
  | .failure cause => .error (.transport cause)
  | .response status textResult jsonResult =>
    if !isSuccess status then
      .error (.status status method path (textResult.getD ""))
    else
      match jsonResult with
      | .error cause => .error (.decode cause method path)
      | .ok (some v) => .ok v
      | .ok none =>
        .error (.status 404 method path "Unable to find requested resource")

/-- State-passing rendering of `Client::request`: the method takes `&self`,
so the client after the call is the receiver unchanged — a shared
reference cannot write any field. -/
def Client.requestRun {T : Type} (c : Client)
    (exec : ReqwestClient → Request → TransportOutcome T)
    (req : Request) (headers : Option HeaderMap) :
    Except Error T × Client :=
  (c.request exec req headers, c)

/-- An in-flight `reqwest::RequestBuilder`: the method and URL string given
to `ReqwestClient::request`, plus the query pairs appended by `.query`. -/
structure RequestBuilder where
  method : Method
  urlString : String
  queryParams : List (String × String)
deriving DecidableEq, Repr

/-- Builder start, `ReqwestClient::request(method, url)`. -/
def ReqwestClient.request (_c : ReqwestClient) (method : Method)
    (urlString : String) : RequestBuilder :=
  ⟨method, urlString, []⟩

/-- Appending serialized query pairs, `RequestBuilder::query`. -/
def RequestBuilder.query (b : RequestBuilder)
    (params : List (String × String)) : RequestBuilder :=
  { b with queryParams := b.queryParams ++ params }

/-- Serializes query pairs as `k=v` joined by `&`. -/
def serializeQuery (ps : List (String × String)) : String :=
  String.intercalate "&" (ps.map (fun p => p.1 ++ "=" ++ p.2))

/-- Finishing the builder, `RequestBuilder::build`: parse the URL string,
attach the accumulated query pairs to its query string, and produce a
request with empty headers (failures of the builder surface through the
same `?` conversion as transport errors). -/
def RequestBuilder.build (b : RequestBuilder) : Except Error Request :=
  match Url.parse b.urlString with
  | none => .error (.transport b.urlString)
  | some u =>
    let u :=
      if b.queryParams.isEmpty then u
      else
        { u with
          query := some
            (match u.query with
             | some q => q ++ "&" ++ serializeQuery b.queryParams
             | none => serializeQuery b.queryParams) }
    .ok ⟨b.method, u, []⟩

/-- Modelled from the spec: the `Tag` resource type from `gamma/types.rs`
(not in the sources) — an opaque typed value produced by the JSON codec;
only its identity matters to the pipeline. -/
structure Tag where
  id : Nat
  label : String
deriving DecidableEq, Repr

/-- Modelled from the spec: `RelatedTagsBySlugRequest` from
`gamma/types.rs` (not in the sources) — a filter object carrying the slug
and an optional depth-limiting field; "query parameters derived from a
typed filter object (optional fields omitted when absent)". -/
structure RelatedTagsBySlugRequest where
  slug : String
  depth : Option Nat
deriving DecidableEq, Repr

/-- Modelled from the spec: query serialization of the filter — optional
fields are emitted as `key=value` pairs and omitted when absent. -/
def RelatedTagsBySlugRequest.queryParams
    (r : RelatedTagsBySlugRequest) : List (String × String) :=
  match r.depth with
  | some d => [("depth", ToString.toString d)]
  | none => []

/-- The builder constructed by `Client::tag_by_id` (client.rs lines
154-161): GET on `format!("{}tags/{}", self.host(), id)`, with
`include_template` appended as a query pair exactly when the argument is
`Some`. -/
def Client.tag_by_id_builder (c : Client) (id : Nat)
    (include_template : Option Bool) : RequestBuilder :=
  let b := c.client.request "GET"
    (c.host.toString ++ "tags/" ++ ToString.toString id)
  match include_template with
  | some inc => b.query [("include_template", ToString.toString inc)]
  | none => b

/-- Accessor `Client::tag_by_id` (client.rs lines 154-164): build the
request and run it through `Client::request` with no header override. -/
def Client.tag_by_id (c : Client)
    (exec : ReqwestClient → Request → TransportOutcome Tag)
    (id : Nat) (include_template : Option Bool) : Except Error Tag :=
  match (c.tag_by_id_builder id include_template).build with
  | .error e => .error e
  | .ok req => c.request exec req none

/-- The builder constructed by `Client::related_tags_by_slug` (client.rs
lines 223-238): GET on
`format!("{}tags/slug/{}/related-tags/tags", self.host(), request.slug)`
with the filter's query pairs attached. -/
def Client.related_tags_by_slug_builder (c : Client)
    (request : RelatedTagsBySlugRequest) : RequestBuilder :=
  (c.client.request "GET"
      (c.host.toString ++ "tags/slug/" ++ request.slug ++
        "/related-tags/tags")).query request.queryParams

/-- Accessor `Client::related_tags_by_slug` (client.rs lines 223-241):
build the request and run it through `Client::request` with no header
override. -/
def Client.related_tags_by_slug (c : Client)
    (exec : ReqwestClient → Request → TransportOutcome (List Tag))
    (request : RelatedTagsBySlugRequest) : Except Error (List Tag) :=
  match (c.related_tags_by_slug_builder request).build with
  | .error e => .error e
  | .ok req => c.request exec req none

/-- Concrete client on the production host, for witnesses. -/
def exampleClient : Client :=
  ⟨⟨"https", "gamma-api.polymarket.com", "/", none⟩, ⟨defaultHeaders⟩⟩

/-- Concrete prepared request, for witnesses. -/
def exampleRequest : Request :=
  ⟨"GET", ⟨"https", "gamma-api.polymarket.com", "/tags/42", none⟩,
    [("X-Old", "1")]⟩

/-- Concrete header override, for witnesses. -/
def overrideHeaders : HeaderMap := [("X-New", "2")]

/-- Transport stub: always a 200 response deserializing to `some 7`. -/
def execAlways : ReqwestClient → Request → TransportOutcome Nat :=
  fun _ _ => .response 200 (some "") (.ok (some 7))

/-- Transport stub: succeeds exactly when the dispatched request carries
the override headers, so agreement with `execAlways` at the overridden
request is observable. -/
def execIfOverridden : ReqwestClient → Request → TransportOutcome Nat :=
  fun _ r =>
    if r.headers = overrideHeaders then .response 200 (some "") (.ok (some 7))
    else .failure "wrong headers"

/-- Transport stub: a 200 response whose JSON body is `null`. -/
def execNull : ReqwestClient → Request → TransportOutcome Nat :=
  fun _ _ => .response 200 (some "null") (.ok none)

/-- Transport stub: a 503 response whose body text cannot be read. -/
def execFailText : ReqwestClient → Request → TransportOutcome Nat :=
  fun _ _ => .response 503 none (.ok none)

/-- Transport stub: a 200 response whose body fails to deserialize. -/
def execBadJson : ReqwestClient → Request → TransportOutcome Nat :=
  fun _ _ => .response 200 (some "not json") (.error "invalid type")

/-- Transport stub: a 500 response with body text `boom`. -/
def execServerError : ReqwestClient → Request → TransportOutcome Nat :=
  fun _ _ => .response 500 (some "boom") (.ok none)

/-- Concrete filter with slug `politics` and a depth limit, for witnesses. -/
def politicsFilter : RelatedTagsBySlugRequest := ⟨"politics", some 3⟩

/-- The request `related_tags_by_slug` builds from `politicsFilter` on the
production host, for witnesses. -/
def politicsRequest : Request :=
  ⟨"GET",
   ⟨"https", "gamma-api.polymarket.com",
    "/tags/slug/politics/related-tags/tags", some "depth=3"⟩, []⟩

/-- Two concrete typed tags, for witnesses. -/
def twoTags : List Tag := [⟨1, "economy"⟩, ⟨2, "elections"⟩]

/-- Transport stub: a 200 response deserializing to the two tags. -/
def execTwoTags : ReqwestClient → Request → TransportOutcome (List Tag) :=
  fun _ _ => .response 200 (some "") (.ok (some twoTags))

/-- Inversion helper: any `Status` error produced by `Client::request`
carries the method and the URL path captured from the original request. -/
theorem request_status_error_inv {T : Type} (c : Client)
    (exec : ReqwestClient → Request → TransportOutcome T)
    (req : Request) (headers : Option HeaderMap)
    (code : Nat) (m : Method) (p : String) (msg : String)
    (h : c.request exec req headers = .error (.status code m p msg)) :
    m = req.method ∧ p = req.url.path := by
  simp only [Client.request] at h
  rcases hx : exec c.client (applyHeaderOverride req headers) with
    cause | ⟨status, textResult, jsonResult⟩ <;> rw [hx] at h
  · simp at h
  · by_cases hs : isSuccess status
    · rcases jsonResult with cause | (_ | w)
      · simp [hs] at h
      · simp [hs] at h
        exact ⟨h.2.1.symm, h.2.2.1.symm⟩
      · simp [hs] at h
    · simp [hs] at h
      exact ⟨h.2.1.symm, h.2.2.1.symm⟩

/-- Claim C1: for every call of the request pipeline where the response has
a 2xx status and a body deserializing to `none` (JSON `null`), `execute`
fails with a Status error carrying HTTP code 404, the original request
method and path, and the fixed message "Unable to find requested
resource", regardless of the requested path. -/
theorem null_body_yields_not_found {T : Type} (c : Client)
    (exec : ReqwestClient → Request → TransportOutcome T)
    (req : Request) (headers : Option HeaderMap) (status : Nat)
    (textResult : Option String)
    (hs : isSuccess status = true)
    (hx : exec c.client (applyHeaderOverride req headers) =
      .response status textResult (.ok none)) :
    c.request exec req headers =
      .error (.status 404 req.method req.url.path
        "Unable to find requested resource") := by
  simp [Client.request, hx, hs]

/-- Witness for C1: a concrete 200-with-null call fails with the
synthesized 404. -/
theorem null_body_yields_not_found_witness :
    exampleClient.request execNull exampleRequest none =
      .error (.status 404 exampleRequest.method exampleRequest.url.path
        "Unable to find requested resource") :=
  null_body_yields_not_found exampleClient execNull exampleRequest none 200
    (some "null") (by decide) rfl

/-- Claim C2: for every call of the request pipeline where the response has
a non-2xx status, `execute` fails with a Status error carrying the exact
status code, the request method, the request path, and the response body
text verbatim; when reading the body text fails the message is the empty
string and no secondary error is produced. -/
theorem non_success_yields_status {T : Type} (c : Client)
    (exec : ReqwestClient → Request → TransportOutcome T)
    (req : Request) (headers : Option HeaderMap) (status : Nat)
    (textResult : Option String) (jsonResult : Except String (Option T))
    (hs : isSuccess status = false)
    (hx : exec c.client (applyHeaderOverride req headers) =
      .response status textResult jsonResult) :
    c.request exec req headers =
      .error (.status status req.method req.url.path (textResult.getD "")) := by
  simp [Client.request, hx, hs]

/-- Witness for C2: a concrete 503 call whose body read fails yields a
Status error with code 503 and an empty message. -/
theorem non_success_yields_status_witness :
    exampleClient.request execFailText exampleRequest none =
      .error (.status 503 exampleRequest.method exampleRequest.url.path "") :=
  non_success_yields_status exampleClient execFailText exampleRequest none 503
    none (.ok none) (by decide) rfl

/-- Claim C3: for every call of the request pipeline where the response has
a 2xx status and a JSON body deserializing to `some v`, `execute` returns
exactly `v` unchanged; conversely, every successful outcome originates
from a 2xx response fully deserialized to `some v` — never a silently
empty or default value. -/
theorem success_returns_value_exactly {T : Type} (c : Client)
    (exec : ReqwestClient → Request → TransportOutcome T)
    (req : Request) (headers : Option HeaderMap) :
    (∀ (status : Nat) (textResult : Option String) (v : T),
      isSuccess status = true →
      exec c.client (applyHeaderOverride req headers) =
        .response status textResult (.ok (some v)) →
      c.request exec req headers = .ok v) ∧
    (∀ v : T, c.request exec req headers = .ok v →
      ∃ (status : Nat) (textResult : Option String),
        exec c.client (applyHeaderOverride req headers) =
          .response status textResult (.ok (some v)) ∧
        isSuccess status = true) := by
  constructor
  · intro status textResult v hs hx
    simp [Client.request, hx, hs]
  · intro v hv
    simp only [Client.request] at hv
    rcases hx : exec c.client (applyHeaderOverride req headers) with
      cause | ⟨status, textResult, jsonResult⟩ <;> rw [hx] at hv
    · simp at hv
    · by_cases hs : isSuccess status
      · rcases jsonResult with cause | (_ | w)
        · simp [hs] at hv
        · simp [hs] at hv
        · simp [hs] at hv
          subst hv
          exact ⟨status, textResult, rfl, hs⟩
      · simp [hs] at hv

/-- Witness for C3: a concrete 200 call deserializing to `some 7` returns
exactly 7. -/
theorem success_returns_value_exactly_witness :
    exampleClient.request execAlways exampleRequest none = .ok 7 :=
  (success_returns_value_exactly exampleClient execAlways exampleRequest
    none).1 200 (some "") 7 (by decide) rfl

/-- Claim C4: for every call of the request pipeline where the response has
a 2xx status but the body cannot be parsed as the expected type, `execute`
fails with a Decode error carrying the request method, the request path
and the underlying deserialization cause, and never returns a
partially-populated value. -/
theorem parse_failure_yields_decode {T : Type} (c : Client)
    (exec : ReqwestClient → Request → TransportOutcome T)
    (req : Request) (headers : Option HeaderMap) (status : Nat)
    (textResult : Option String) (cause : String)
    (hs : isSuccess status = true)
    (hx : exec c.client (applyHeaderOverride req headers) =
      .response status textResult (.error cause)) :
    c.request exec req headers =
      .error (.decode cause req.method req.url.path) := by
  simp [Client.request, hx, hs]

/-- Witness for C4: a concrete 200 call whose body fails to deserialize
yields a Decode error with the method, path and cause. -/
theorem parse_failure_yields_decode_witness :
    exampleClient.request execBadJson exampleRequest none =
      .error (.decode "invalid type" exampleRequest.method
        exampleRequest.url.path) :=
  parse_failure_yields_decode exampleClient execBadJson exampleRequest none 200
    (some "not json") "invalid type" (by decide) rfl

/-- Claim C5: a supplied header override fully replaces the request's
headers (the resulting request carries exactly the override headers and
none of the previous ones, its method and URL untouched); with no
override the request is unchanged; and the pipeline dispatches exactly the
overridden request (its result depends on the transport only through its
value at that request). -/
theorem header_override_full_replacement (req : Request) (h : HeaderMap) :
    (applyHeaderOverride req (some h)).headers = h ∧
    (applyHeaderOverride req (some h)).method = req.method ∧
    (applyHeaderOverride req (some h)).url = req.url ∧
    applyHeaderOverride req none = req ∧
    (∀ {T : Type} (c : Client)
      (exec₁ exec₂ : ReqwestClient → Request → TransportOutcome T)
      (headers : Option HeaderMap),
      exec₁ c.client (applyHeaderOverride req headers) =
        exec₂ c.client (applyHeaderOverride req headers) →
      c.request exec₁ req headers = c.request exec₂ req headers) := by
  refine ⟨rfl, rfl, rfl, rfl, ?_⟩
  intro T c exec₁ exec₂ headers hx
  simp [Client.request, hx]

/-- Witness for C5: at a concrete request, the override replaces the
headers, and two transports that agree at the overridden request give the
same pipeline result. -/
theorem header_override_full_replacement_witness :
    (applyHeaderOverride exampleRequest (some overrideHeaders)).headers =
      overrideHeaders ∧
    exampleClient.request execIfOverridden exampleRequest (some overrideHeaders) =
      exampleClient.request execAlways exampleRequest (some overrideHeaders) :=
  ⟨(header_override_full_replacement exampleRequest overrideHeaders).1,
   (header_override_full_replacement exampleRequest overrideHeaders).2.2.2.2
     exampleClient execIfOverridden execAlways (some overrideHeaders) (by rfl)⟩

/-- Claim C6: for every string parsing as a valid absolute URL, client
construction succeeds and the `host` field holds the parsed, normalized
URL; for every malformed string, construction fails with a Configuration
error. -/
theorem new_validates_host (s : String) :
    (∀ u : Url, Url.parse s = some u →
      ∃ c : Client, Client.new s = .ok c ∧ c.host = u) ∧
    (Url.parse s = none → Client.new s = .error (.configuration s)) := by
  constructor
  · intro u hu
    exact ⟨⟨u, ⟨defaultHeaders⟩⟩, by simp [Client.new, hu], rfl⟩
  · intro hn
    simp [Client.new, hn]

/-- Witness for C6: the production host string constructs a client whose
host is the normalized URL, and a malformed string fails with
Configuration. -/
theorem new_validates_host_witness :
    (∃ c : Client, Client.new "https://gamma-api.polymarket.com" = .ok c ∧
      c.host = ⟨"https", "gamma-api.polymarket.com", "/", none⟩) ∧
    Client.new "not a url" = .error (.configuration "not a url") :=
  ⟨(new_validates_host "https://gamma-api.polymarket.com").1
      ⟨"https", "gamma-api.polymarket.com", "/", none⟩ (by decide),
   (new_validates_host "not a url").2 (by decide)⟩

/-- Claim C7: for every id and every `include_template` argument,
`tag_by_id` builds the request URL by appending `tags/` and the id to the
host (id 42 yields the host string followed by `tags/42`), uses GET,
appends the query pair `include_template=true` when the argument is
`some true`, and omits the parameter entirely when it is `none`. -/
theorem tag_by_id_builds_url (c : Client) (id : Nat) (it : Option Bool) :
    (c.tag_by_id_builder id it).urlString =
      c.host.toString ++ "tags/" ++ ToString.toString id ∧
    (c.tag_by_id_builder 42 it).urlString =
      c.host.toString ++ "tags/" ++ "42" ∧
    (c.tag_by_id_builder id it).method = "GET" ∧
    (c.tag_by_id_builder id (some true)).queryParams =
      [("include_template", "true")] ∧
    (c.tag_by_id_builder id none).queryParams = [] ∧
    (c.tag_by_id_builder id it).queryParams =
      (match it with
       | some b => [("include_template", ToString.toString b)]
       | none => []) := by
  cases it <;> exact ⟨rfl, rfl, rfl, rfl, rfl, rfl⟩

/-- Claim C8: for every call of `related_tags_by_slug` with slug
`politics` and a depth-limiting filter, the built request URL is the host
string followed by `tags/slug/politics/related-tags/tags` plus the
filter's query parameters, and a 200 response whose body deserializes to
two typed tags yields exactly those two tags in response order. -/
theorem related_tags_by_slug_politics (c : Client)
    (r : RelatedTagsBySlugRequest) (hslug : r.slug = "politics") :
    (c.related_tags_by_slug_builder r).urlString =
      c.host.toString ++ "tags/slug/" ++ "politics" ++ "/related-tags/tags" ∧
    (c.related_tags_by_slug_builder r).method = "GET" ∧
    (c.related_tags_by_slug_builder r).queryParams = r.queryParams ∧
    (∀ (exec : ReqwestClient → Request → TransportOutcome (List Tag))
      (req : Request) (textResult : Option String) (t₁ t₂ : Tag),
      (c.related_tags_by_slug_builder r).build = .ok req →
      exec c.client (applyHeaderOverride req none) =
        .response 200 textResult (.ok (some [t₁, t₂])) →
      c.related_tags_by_slug exec r = .ok [t₁, t₂] ∧
        ([t₁, t₂] : List Tag).length = 2) := by
  refine ⟨?_, rfl, ?_, ?_⟩
  · simp [Client.related_tags_by_slug_builder, ReqwestClient.request,
      RequestBuilder.query, hslug]
  · simp [Client.related_tags_by_slug_builder, ReqwestClient.request,
      RequestBuilder.query]
  · intro exec req textResult t₁ t₂ hbuild hx
    refine ⟨?_, rfl⟩
    simp [Client.related_tags_by_slug, hbuild, Client.request, hx, isSuccess]

/-- Witness for C8: on the production host with the `politics` filter, a
200 response with two tags yields exactly those two tags in order. -/
theorem related_tags_by_slug_politics_witness :
    exampleClient.related_tags_by_slug execTwoTags politicsFilter =
      .ok twoTags :=
  ((related_tags_by_slug_politics exampleClient politicsFilter rfl).2.2.2
    execTwoTags politicsRequest (some "") ⟨1, "economy"⟩ ⟨2, "elections"⟩
    rfl rfl).1

/-- Claim C9: no pipeline call mutates the client: in the state-passing
rendering the client after a call equals the client before it (host and
transport with its default headers included), the result depends on the
client only through its fixed transport handle, and a preceding call
carries no information into a later one. -/
theorem client_stateless {T : Type} (c : Client)
    (exec : ReqwestClient → Request → TransportOutcome T)
    (req : Request) (headers : Option HeaderMap) :
    (c.requestRun exec req headers).2 = c ∧
    (c.requestRun exec req headers).2.host = c.host ∧
    (c.requestRun exec req headers).2.client.defaultHeaders =
      c.client.defaultHeaders ∧
    (∀ c' : Client, c'.client = c.client →
      c'.request exec req headers = c.request exec req headers) ∧
    (∀ (S : Type) (exec' : ReqwestClient → Request → TransportOutcome S)
      (req' : Request) (headers' : Option HeaderMap),
      ((c.requestRun exec req headers).2.requestRun exec' req' headers').1 =
        (c.requestRun exec' req' headers').1) := by
  refine ⟨rfl, rfl, rfl, ?_, fun S exec' req' headers' => rfl⟩
  intro c' hc
  simp [Client.request, hc]

/-- Witness for C9: a concrete call leaves the concrete client unchanged,
and a client with the same transport gives the same result. -/
theorem client_stateless_witness :
    (exampleClient.requestRun execAlways exampleRequest none).2 =
      exampleClient ∧
    exampleClient.request execAlways exampleRequest none =
      exampleClient.request execAlways exampleRequest none :=
  ⟨(client_stateless exampleClient execAlways exampleRequest none).1,
   (client_stateless exampleClient execAlways exampleRequest none).2.2.2.1
     exampleClient rfl⟩

/-- Claim C10: the path recorded in any Status error of the pipeline
(including the synthesized 404) is the URL's path component of the
original request only — unchanged under any scheme, host or query of the
URL — and is captured before any header replacement, hence unchanged
under any header override. -/
theorem status_error_path_component {T : Type} (c : Client)
    (exec : ReqwestClient → Request → TransportOutcome T)
    (req : Request) (headers : Option HeaderMap)
    (code : Nat) (m : Method) (p : String) (msg : String)
    (h : c.request exec req headers = .error (.status code m p msg)) :
    p = req.url.path ∧ m = req.method ∧
    (∀ (scheme host : String) (query : Option String),
      (Url.mk scheme host req.url.path query).path = p) ∧
    (∀ headers' : Option HeaderMap,
      p = (applyHeaderOverride req headers').url.path) := by
  obtain ⟨hm, hp⟩ := request_status_error_inv c exec req headers code m p msg h
  refine ⟨hp, hm, ?_, ?_⟩
  · intro scheme host query
    simpa using hp.symm
  · intro headers'
    cases headers' <;> simpa using hp

/-- Witness for C10: a concrete 500 call records exactly the path
component of the request URL and the request method. -/
theorem status_error_path_component_witness :
    "/tags/42" = exampleRequest.url.path ∧ "GET" = exampleRequest.method :=
  ⟨(status_error_path_component exampleClient execServerError exampleRequest
      none 500 "GET" "/tags/42" "boom" rfl).1,
   (status_error_path_component exampleClient execServerError exampleRequest
      none 500 "GET" "/tags/42" "boom" rfl).2.1⟩

end Gamma
